import Mathlib

/-!
Shallow embedding of the cuDNN operator layer of
theano/sandbox/gpuarray/dnn.py: descriptor constructors, forward/gradient
convolution shape inference and differentiation, the high-level dnn_conv
dispatch, the availability gate, and the local rewrite rules (in-place,
log-softmax fusion, average-pooling gradient lift).

Conventions used throughout:
  - Python integers are Int; Python floor division (//) is Int.fdiv.
  - Shapes are lists of Int indexed like the Python shape tuples.
  - A raised Python exception is modelled as Option.none, or as
    Except.error carrying the exception kind and message.
  - Symbolic graph values are modelled by small inductive types carrying
    exactly the structure the rewrite rules inspect.
-/

namespace TheanoDnn

/-- A border_mode argument as accepted by GpuDnnConvDesc and dnn_conv:
a plain integer, a tuple of integers, or a string such as "valid" / "full". -/
inductive BorderArg
  | bint (i : Int)
  | btuple (t : List Int)
  | bstr (s : String)
  deriving DecidableEq

/-- The Python exceptions raised by the descriptor constructors. -/
inductive DescError
  | valueError (msg : String)
  | assertionError
  | runtimeError (msg : String)
  deriving DecidableEq

/-- The parameter set of a constructed GpuDnnConvDesc operator
(its three props: border_mode, subsample, conv_mode). -/
structure ConvDesc where
  border_mode : BorderArg
  subsample : List Int
  conv_mode : String
  deriving DecidableEq

/-- GpuDnnConvDesc.__init__ (dnn.py lines 229-247).  An integer border mode
is replicated to the subsample length; a tuple border mode must have the
subsample length and nonnegative entries; otherwise the string must be
"valid" or "full".  The subsample length must be 2 or 3 and the conv mode
"conv" or "cross".  Note the constructor never consults the detected cuDNN
version. -/
def GpuDnnConvDesc_init (border_mode : BorderArg) (subsample : List Int)
    (conv_mode : String) : Except DescError ConvDesc :=
  let bm := match border_mode with
    | BorderArg.bint i => BorderArg.btuple (List.replicate subsample.length i)
    | x => x
  let lenOk : Bool := match bm with
    | BorderArg.btuple t => t.length == subsample.length
    | _ => true
  if lenOk = false then Except.error DescError.assertionError
  else
    -- first disjunct of the validity check: isinstance tuple and min >= 0;
    -- none models the ValueError raised by min() on an empty tuple
    let minOk : Option Bool := match bm with
      | BorderArg.btuple t => (t.min?).map (fun m => decide (0 ≤ m))
      | _ => some false
    match minOk with
    | none => Except.error (DescError.valueError "min() arg is an empty sequence")
    | some fd =>
      if ¬ (fd = true ∨ bm = BorderArg.bstr "valid" ∨ bm = BorderArg.bstr "full") then
        Except.error (DescError.valueError "invalid border_mode")
      else if ¬ (subsample.length = 2 ∨ subsample.length = 3) then
        Except.error DescError.assertionError
      else if ¬ (conv_mode = "conv" ∨ conv_mode = "cross") then
        Except.error DescError.assertionError
      else Except.ok ⟨bm, subsample, conv_mode⟩

/-- The parameter set of a constructed GpuDnnPoolDesc operator. -/
structure PoolDesc where
  ws : List Int
  stride : List Int
  mode : String
  pad : List Int
  deriving DecidableEq

/-- GpuDnnPoolDesc.__init__ (dnn.py lines 862-875).  The deprecated mode
"average" is renamed; ws, stride and pad must share their length, which must
be 2 or 3; a rank-3 descriptor additionally requires the detected cuDNN
version (the value of version()) to be at least 3000. -/
def GpuDnnPoolDesc_init (ws stride : List Int) (mode : String) (pad : List Int)
    (detectedVersion : Int) : Except DescError PoolDesc :=
  let mode2 := if mode = "average" then "average_inc_pad" else mode
  if ¬ (mode2 = "max" ∨ mode2 = "average_inc_pad" ∨ mode2 = "average_exc_pad") then
    Except.error DescError.assertionError
  else if ¬ (ws.length = stride.length ∧ stride.length = pad.length) then
    Except.error DescError.assertionError
  else if ¬ (ws.length = 2 ∨ ws.length = 3) then
    Except.error DescError.assertionError
  else if ws.length = 3 ∧ detectedVersion < 3000 then
    Except.error (DescError.runtimeError "CuDNN 3d pooling requires v3")
  else Except.ok ⟨ws, stride, mode2, pad⟩

/-- GpuDnnConv.get_out_shape (dnn.py lines 441-490), translated line by line.
none models a raised exception: an IndexError from a shape or tuple access,
or the NameError on padd in the rank-3 "full" case (padd is assigned only
under the test nd > 4, which never holds since nd = len(subsample) is 2 or
3).  Note the source reads both d and kd from ishape[4], and the rank-3
result line computes d + 2*padd - (kd // sd) + 1 because the floor division
binds tighter than the subtractions. -/
def get_out_shape (ishape kshape : List Int) (border_mode : BorderArg)
    (subsample : List Int) : Option (List Int) := do
  let b ← ishape.get? 0
  let h ← ishape.get? 2
  let w ← ishape.get? 3
  let nb ← kshape.get? 0
  let kh ← kshape.get? 2
  let kw ← kshape.get? 3
  let nd := subsample.length
  let dkd ← if nd > 2 then do
      let d ← ishape.get? 4
      let kd ← ishape.get? 4
      pure (some (d, kd))
    else pure (none : Option (Int × Int))
  let sh ← subsample.get? 0
  let sw ← subsample.get? 1
  let sd ← if nd > 2 then do
      let x ← subsample.get? 2
      pure (some x)
    else pure (none : Option Int)
  let pads ← (if border_mode = BorderArg.bstr "full" then
      some (kh - 1, kw - 1,
        if nd > 4 then dkd.map (fun p => p.2 - 1) else (none : Option Int))
    else match border_mode with
      | BorderArg.btuple p => do
          let p0 ← p.get? 0
          let p1 ← p.get? 1
          let p2 ← if nd > 2 then do
              let q ← p.get? 2
              pure (some q)
            else pure (none : Option Int)
          pure (p0, p1, p2)
      | _ =>
          if border_mode = BorderArg.bstr "valid" then
            some ((0 : Int), (0 : Int), some (0 : Int))
          else none)
  let res := [b, nb,
    (h + 2 * pads.1 - kh).fdiv sh + 1,
    (w + 2 * pads.2.1 - kw).fdiv sw + 1]
  if nd > 2 then do
    let dk ← dkd
    let padd ← pads.2.2
    let s ← sd
    pure (res ++ [dk.1 + 2 * padd - dk.2.fdiv s + 1])
  else pure res

/-- The output-shape formula as the specification states it (spec section
4.3): out = [batch, channel_out, out_spatial...] with
out_spatial[i] = floor((in_spatial[i] + 2*p[i] - kernel_spatial[i]) / s[i]) + 1.
This definition follows the words of the spec and is used only to compare
the source function against the stated formula. -/
def specConvOutShape (ishape kshape pad stride : List Int) : List Int :=
  ishape.take 1 ++ kshape.take 1 ++
    (List.range (ishape.length - 2)).map (fun i =>
      ((ishape.getD (i + 2) 0) + 2 * (pad.getD i 0)
        - (kshape.getD (i + 2) 0)).fdiv (stride.getD i 1) + 1)

/-- Effect of dimshuffle(1, 0, 2, 3) on a shape.  The source only ever
applies this pattern to rank-4 tensors, where it swaps the first two
entries. -/
def dimshuffle1023 (s : List Int) : List Int :=
  match s with
  | a :: b :: rest => b :: a :: rest
  | other => other

/-- The operator subgraph dnn_conv assembles: which convolution operator is
finally applied, the parameters of the GpuDnnConvDesc it builds, the shape
argument the descriptor receives, and the shape of the allocated output
buffer. -/
inductive ConvLowering
  | gradW (descBorder : BorderArg) (descSub : List Int) (descMode : String)
      (descShapeArg : List Int) (outShape : List Int) (finalShape : List Int)
  | gradI (descBorder : BorderArg) (descSub : List Int) (descMode : String)
      (descShapeArg : List Int) (outShape : List Int)
  | forward (descBorder : BorderArg) (descSub : List Int) (descMode : String)
      (descShapeArg : List Int) (outShape : List Int)
  deriving DecidableEq

/-- dnn_conv (dnn.py lines 726-822) at the level of shapes and descriptor
parameters.  Branch 1: valid padding, unit stride and the "bprop weights"
hint lower to GpuDnnConvGradW on axis-swapped inputs.  Branch 2: full
padding, unit stride and a hint other than "forward!" lower to
GpuDnnConvGradI with a "valid" descriptor of the complemented mode, sized
from the (axis-swapped) kernel shape.  Otherwise the forward operator is
used with the requested descriptor and an output buffer shaped by
get_out_shape.  none models a raised exception. -/
def dnn_conv (imgShape kernShape : List Int) (border_mode : BorderArg)
    (subsample : List Int) (conv_mode : String)
    (direction_hint : Option String) : Option ConvLowering := do
  if border_mode = BorderArg.bstr "valid" ∧ subsample = [1, 1] ∧
      direction_hint = some "bprop weights" then
    let imgS := dimshuffle1023 imgShape
    -- for conv_mode = "conv" the kernels are flipped spatially first,
    -- which leaves the shape unchanged
    let kernS := dimshuffle1023 kernShape
    let shape2 := (← imgS.get? 2) - (← kernS.get? 2) + 1
    let shape3 := (← imgS.get? 3) - (← kernS.get? 3) + 1
    let outShape := [← kernS.get? 1, ← imgS.get? 1, shape2, shape3]
    let desc ← (GpuDnnConvDesc_init (BorderArg.bstr "valid") [1, 1] "cross").toOption
    pure (ConvLowering.gradW desc.border_mode desc.subsample desc.conv_mode
      outShape outShape (dimshuffle1023 outShape))
  else if border_mode = BorderArg.bstr "full" ∧ subsample = [1, 1] ∧
      direction_hint ≠ some "forward!" then
    let kernS := dimshuffle1023 kernShape
    let conv_mode2 := if conv_mode = "conv" then "cross" else "conv"
    let shape2 := (← imgShape.get? 2) + (← kernS.get? 2) - 1
    let shape3 := (← imgShape.get? 3) + (← kernS.get? 3) - 1
    let outShape := [← imgShape.get? 0, ← kernS.get? 1, shape2, shape3]
    let desc ← (GpuDnnConvDesc_init (BorderArg.bstr "valid") [1, 1] conv_mode2).toOption
    pure (ConvLowering.gradI desc.border_mode desc.subsample desc.conv_mode
      kernS outShape)
  else
    let desc ← (GpuDnnConvDesc_init border_mode subsample conv_mode).toOption
    let outShp ← get_out_shape imgShape kernShape desc.border_mode desc.subsample
    pure (ConvLowering.forward desc.border_mode desc.subsample desc.conv_mode
      kernShape outShp)

/-- Symbolic graph values, carrying exactly the structure built by
GpuDnnConv.grad and by the pooling-gradient rewrite: variables, the
gpu_contiguous and empty_like wrappers, applications of the three
convolution operators and of GpuDnnPoolGrad, a pooling descriptor,
elementwise multiplication, DisconnectedType and grad_not_implemented
placeholders. -/
inductive Expr
  | v (id : Nat)
  | gpuContiguous (e : Expr)
  | emptyLike (e : Expr)
  | appGradI (kern top out desc : Expr)
  | appGradW (img top out desc : Expr)
  | appConv (img kern out desc : Expr)
  | appPoolGrad (inp out outGrad desc : Expr)
  | poolDesc (ws stride : List Int) (mode : String) (pad : List Int)
  | mul (a b : Expr)
  | disconnected
  | gradNotImplemented (idx : Nat) (wrt : Expr)
  deriving DecidableEq

/-- GpuDnnConv.grad (dnn.py lines 423-435): the six gradient expressions
returned for the inputs (img, kerns, output, desc, alpha, beta) given the
output gradient.  The output-buffer input output itself is not used by the
rule. -/
def GpuDnnConv_grad (img kerns _output desc alpha beta : Expr)
    (topGrad : Expr) : List Expr :=
  let top := Expr.gpuContiguous topGrad
  let d_img := Expr.appGradI kerns top (Expr.emptyLike img) desc
  let d_kerns := Expr.appGradW img top (Expr.emptyLike kerns) desc
  let d_alpha := Expr.gradNotImplemented 4 alpha
  let d_beta := Expr.gradNotImplemented 5 beta
  [Expr.mul d_img alpha, Expr.mul d_kerns alpha, Expr.mul top beta,
    Expr.disconnected, d_alpha, d_beta]

/-- GpuDnnConv.connection_pattern (dnn.py lines 437-439): one row per input;
[0] marks an input the output is not connected to. -/
def GpuDnnConv_connection_pattern : List (List Nat) :=
  [[1], [1], [1], [0], [1], [1]]

/-- local_avg_pool_dnn_grad_stride (dnn.py lines 1366-1385): lifts a generic
AveragePoolGrad node (inputs inp, out_grad; op parameters ds, st, padding,
mode, ignore_border) to GpuDnnPoolGrad.  The contiguity-enforced gradient
tensor cg is passed for both the forward-output and the output-gradient
slots.  detectedVersion feeds the GpuDnnPoolDesc construction; none models
both a non-firing rule and a raised exception. -/
def local_avg_pool_dnn_grad_stride (dnnAvail : Bool) (ignore_border : Bool)
    (ds st pad : List Int) (mode : String) (detectedVersion : Int)
    (inp out_grad : Expr) : Option Expr :=
  if ¬ dnnAvail then none
  else if ¬ ignore_border then none
  else do
    let cg := Expr.gpuContiguous out_grad
    let d ← (GpuDnnPoolDesc_init ds st mode pad detectedVersion).toOption
    pure (Expr.appPoolGrad (Expr.gpuContiguous inp) cg cg
      (Expr.poolDesc d.ws d.stride d.mode d.pad))

/-- Python str.startswith on code-point lists: does the second argument
occur as an initial segment of the first. -/
def pyStartsWith : List Char → List Char → Bool
  | _, [] => true
  | [], _ :: _ => false
  | a :: as, b :: bs => if a.toNat = b.toNat then pyStartsWith as bs else false

/-- Python lexicographic comparison of strings, code point by code point. -/
def pyStrLt : List Char → List Char → Bool
  | _, [] => false
  | [], _ :: _ => true
  | a :: as, b :: bs =>
    if a.toNat < b.toNat then true
    else if a.toNat = b.toNat then pyStrLt as bs else false

/-- Python slicing s[:-2]: the string without its last two characters. -/
def pyDropLast2 (s : List Char) : List Char :=
  s.take (s.length - 2)

/-- The process environment the availability probe reads: whether the pygpu
binding imported, the active device name, the bin_id string of the default
context, the outcome and diagnostic text of the trial compilation, and the
header/runtime cuDNN versions the DnnVersion op would report.  Strings are
carried as code-point lists. -/
structure DnnEnv where
  pygpuPresent : Bool
  device : List Char
  binId : List Char
  compOk : Bool
  compErr : List Char
  headerVersion : Int
  runtimeVersion : Int
  deriving DecidableEq

/-- The module-level mutable attributes: dnn_available.avail,
dnn_available.msg and version.v. -/
structure DnnState where
  avail : Option Bool
  msg : Option (List Char)
  versionCache : Option Int
  deriving DecidableEq

/-- The initial state (dnn.py lines 102-103 and 200): all three caches
unset. -/
def dnnState0 : DnnState := { avail := none, msg := none, versionCache := none }

/-- version() (dnn.py lines 179-200).  It first consults dnn_available; at
every call site in the source the avail cache is already set, so the check
reads the cached verdict.  On a header/runtime mismatch it raises without
filling version.v; otherwise the runtime version is cached and returned. -/
def version (env : DnnEnv) (st : DnnState) : (Except String Int) × DnnState :=
  match st.avail with
  | some true =>
    match st.versionCache with
    | some v => (Except.ok v, st)
    | none =>
      if env.headerVersion ≠ env.runtimeVersion then
        (Except.error "Mixed dnn version.", st)
      else
        (Except.ok env.runtimeVersion,
          { st with versionCache := some env.runtimeVersion })
  | _ =>
    (Except.error "We can not determine the cudnn version as it is not available",
      st)

/-- dnn_available (dnn.py lines 35-103) as a state transformer.  The third
component records whether the probe body ran (it runs exactly when the
avail cache is unset).  Note two faithful details of the source: the
compute-capability test compares bin_id with the last two characters
dropped against the string "30", and it does not return when it fails, so
the trial compilation below overwrites its verdict. -/
def dnn_available (env : DnnEnv) (st : DnnState) :
    (Except String Bool) × DnnState × Bool :=
  match st.avail with
  | some b => (Except.ok b, st, false)
  | none =>
    if env.pygpuPresent = false then
      (Except.ok false,
        { st with msg := some "PyGPU not available".data, avail := some false },
        true)
    else if ¬ pyStartsWith env.device "cuda".data then
      (Except.ok false,
        { st with
            msg := some ("Not on a CUDA device. Got ".data ++ env.device ++ ".".data),
            avail := some false }, true)
    else
      let st1 :=
        if pyStrLt (pyDropLast2 env.binId) "30".data then
          { st with
              msg := some "Device not supported by cuDNN".data,
              avail := some false }
        else st
      let st2 := { st1 with avail := some env.compOk }
      if env.compOk = false then
        (Except.ok false,
          { st2 with msg := some ("Theano cannot compile with cuDNN. We got this error:\n".data
            ++ env.compErr) }, true)
      else
        match version env st2 with
        | (Except.error e, st3) => (Except.error e, st3, true)
        | (Except.ok v, st3) =>
          if v < 2000 then
            (Except.error "You have an old release of CuDNN (or a release candidate) that is not supported.",
              { st3 with
                  avail := some false,
                  msg := some "You have an old release of CuDNN (or a release candidate) that is not supported.".data },
              true)
          else if 3000 ≤ v ∧ v < 3007 then
            (Except.error "You have installed a release candidate of CuDNN v3. This is not supported.",
              { st3 with
                  avail := some false,
                  msg := some "You have installed a release candidate of CuDNN v3. This is not supported.".data },
              true)
          else
            (Except.ok true, st3, true)

/-- n sequential calls of dnn_available in one process, starting from the
unset caches; the second component counts how many of the calls executed
the probe body. -/
def dnnCalls (env : DnnEnv) : Nat → DnnState × Nat
  | 0 => (dnnState0, 0)
  | n + 1 =>
    let p := dnnCalls env n
    let r := dnn_available env p.1
    (r.2.1, p.2 + (if r.2.2 then 1 else 0))

/-- Graph operators relevant to the in-place rewrite rules: the allocation
operator GpuAllocEmpty (with its dtype) and anything else. -/
inductive BufOp
  | gpuAllocEmpty (dtype : String)
  | otherOp (tag : Nat)
  deriving DecidableEq

/-- A graph variable as the in-place rules see it: its producing apply node
(operator plus the ids of that node's own inputs), absent for graph inputs,
and the number of apply nodes consuming it (the length of its clients
list; the matched node itself is among them). -/
structure Buf where
  owner : Option (BufOp × List Nat)
  clients : Nat
  deriving DecidableEq

/-- Which of the three convolution operators an apply node carries. -/
inductive ConvOpKind
  | conv
  | gradW
  | gradI
  deriving DecidableEq

/-- An apply node of one of the three convolution operators: the operator
kind, its algo and inplace props, and its input variables (conv nodes have
six: primary, secondary, output buffer, descriptor, alpha, beta). -/
structure ConvNode where
  kind : ConvOpKind
  algo : String
  inplace : Bool
  inputs : List Buf
  deriving DecidableEq

/-- Common body of local_dnn_conv_inplace, local_dnn_convgw_inplace and
local_dnn_convgi_inplace (dnn.py lines 1245-1281), which are textually
identical up to the operator class k.  If the node carries the matched
operator and is not already in-place: when the destination (inputs[2]) is
owned by a GpuAllocEmpty node and has more than one client, a fresh
GpuAllocEmpty with the same dtype and inputs is substituted (a freshly
created variable whose only client is the node being built, hence
clients = 1); the node is then rebuilt with the same algo and
inplace = true. -/
def dnn_conv_inplace_body (k : ConvOpKind) (node : ConvNode) : Option ConvNode :=
  if node.kind ≠ k ∨ node.inplace = true then none
  else
    match node.inputs.get? 2 with
    | none => none
    | some dest =>
      let inputs2 :=
        match dest.owner with
        | some (BufOp.gpuAllocEmpty dt, ownerIns) =>
          if dest.clients > 1 then
            node.inputs.set 2
              { owner := some (BufOp.gpuAllocEmpty dt, ownerIns), clients := 1 }
          else node.inputs
        | _ => node.inputs
      some { kind := k, algo := node.algo, inplace := true, inputs := inputs2 }

/-- local_dnn_conv_inplace (dnn.py lines 1245-1255). -/
def local_dnn_conv_inplace (node : ConvNode) : Option ConvNode :=
  dnn_conv_inplace_body ConvOpKind.conv node

/-- local_dnn_convgw_inplace (dnn.py lines 1258-1268). -/
def local_dnn_convgw_inplace (node : ConvNode) : Option ConvNode :=
  dnn_conv_inplace_body ConvOpKind.gradW node

/-- local_dnn_convgi_inplace (dnn.py lines 1271-1281). -/
def local_dnn_convgi_inplace (node : ConvNode) : Option ConvNode :=
  dnn_conv_inplace_body ConvOpKind.gradI node

/-- Graph operators relevant to the log-softmax fusion: a GpuElemwise whose
scalar op is Log, any other GpuElemwise, a GpuDnnSoftmax with its algo and
mode props, and anything else. -/
inductive SNodeOp
  | elemwiseLog
  | elemwiseOther (tag : Nat)
  | softmaxOp (algo : String) (mode : String)
  | otherOp (tag : Nat)
  deriving DecidableEq

/-- A graph variable as the fusion rule sees it: its producing apply node
(operator and input variable ids) and the length of its clients list. -/
structure SVal where
  owner : Option (SNodeOp × List Nat)
  clients : Nat
  deriving DecidableEq

/-- GpuDnnSoftmaxBase.__init__ (dnn.py lines 1100-1109): algo must be fast,
accurate or log; log additionally requires the detected cuDNN version to
be at least 3000; mode must be instance or channel. -/
def GpuDnnSoftmaxBase_init (algo mode : String) (detectedVersion : Int) :
    Except String (String × String) :=
  if ¬ (algo = "fast" ∨ algo = "accurate" ∨ algo = "log") then
    Except.error "AssertionError"
  else if algo = "log" ∧ detectedVersion < 3000 then
    Except.error "Need CuDNN v3 for log-softmax"
  else if ¬ (mode = "instance" ∨ mode = "channel") then
    Except.error "AssertionError"
  else Except.ok (algo, mode)

/-- local_log_softmax_dnn (dnn.py lines 1401-1414): on a GpuElemwise-Log
node whose single input is produced by a GpuDnnSoftmax and has exactly one
client, and when the gate reports availability with version at least 3000,
builds GpuDnnSoftmax("log", mode) applied to the softmax node's own input.
The replacement is the new node's operator together with its input ids. -/
def local_log_softmax_dnn (dnnAvail : Bool) (detectedVersion : Int)
    (op : SNodeOp) (inputs : List SVal) : Option (SNodeOp × List Nat) :=
  if ¬ dnnAvail ∨ detectedVersion < 3000 then none
  else
    match inputs.get? 0 with
    | none => none
    | some x =>
      match op, x.owner with
      | SNodeOp.elemwiseLog, some (SNodeOp.softmaxOp _a m, sIns) =>
        if x.clients = 1 then
          match (GpuDnnSoftmaxBase_init "log" m detectedVersion).toOption,
              sIns.get? 0 with
          | some am, some xi => some (SNodeOp.softmaxOp am.1 am.2, [xi])
          | _, _ => none
        else none
      | _, _ => none

/-- A scalar graph constant: its numeric value and dtype.  This models the
scalar Variables that reach ensure_dt from make_node (the defaults _zero
and _one, or an explicit scalar argument); astype keeps the value (exact
for the constants used here) and retags the dtype. -/
structure ScalarV where
  val : Rat
  dtype : String
  deriving DecidableEq

/-- The module constant _zero (dnn.py line 296): 0.0 as float64. -/
def _zero : ScalarV := { val := 0, dtype := "float64" }

/-- The module constant _one (dnn.py line 297): 1.0 as float64. -/
def _one : ScalarV := { val := 1, dtype := "float64" }

/-- ensure_dt (dnn.py lines 300-311) restricted to scalar arguments: an
omitted value is replaced by a clone of the default; a value whose dtype
differs from the requested one is cast to it. -/
def ensure_dt (val? : Option ScalarV) (default : ScalarV) (_name : String)
    (dtype : String) : ScalarV :=
  let v := match val? with
    | none => default
    | some w => w
  if v.dtype = dtype then v else { v with dtype := dtype }

/-- The alpha/beta handling of GpuDnnConv.make_node (dnn.py lines 417-418):
alpha defaults to _one, beta to _zero, both brought to img.dtype. -/
def GpuDnnConv_make_node_scalars (imgDtype : String)
    (alpha beta : Option ScalarV) : ScalarV × ScalarV :=
  (ensure_dt alpha _one "alpha" imgDtype, ensure_dt beta _zero "beta" imgDtype)

/-- The alpha/beta handling of GpuDnnConvGradW.make_node (dnn.py lines
601-602), keyed on img.dtype. -/
def GpuDnnConvGradW_make_node_scalars (imgDtype : String)
    (alpha beta : Option ScalarV) : ScalarV × ScalarV :=
  (ensure_dt alpha _one "alpha" imgDtype, ensure_dt beta _zero "beta" imgDtype)

/-- The alpha/beta handling of GpuDnnConvGradI.make_node (dnn.py lines
716-717), keyed on kern.dtype. -/
def GpuDnnConvGradI_make_node_scalars (kernDtype : String)
    (alpha beta : Option ScalarV) : ScalarV × ScalarV :=
  (ensure_dt alpha _one "alpha" kernDtype, ensure_dt beta _zero "beta" kernDtype)

/-- Modelled from the spec: the numeric contract of the convolution kernels,
output := alpha * op(primary, secondary) + beta * output (spec section 4.3).
The C implementations (dnn_fwd.c, dnn_gw.c, dnn_gi.c) are not under src. -/
def convScale (alpha beta opval outval : Rat) : Rat :=
  alpha * opval + beta * outval

/-- A probe environment with a CUDA device whose bin_id is "sm_20" (compute
capability 2.0, below the 3.0 minimum), a succeeding trial compilation and
cuDNN version 3007 on both sides. -/
def envCap : DnnEnv :=
  { pygpuPresent := true, device := "cuda0".data, binId := "sm_20".data,
    compOk := true, compErr := [], headerVersion := 3007,
    runtimeVersion := 3007 }

/-- The same environment with bin_id "20", a value on which the
capability comparison of the probe does hold. -/
def envCap2 : DnnEnv :=
  { pygpuPresent := true, device := "cuda0".data, binId := "20".data,
    compOk := true, compErr := [], headerVersion := 3007,
    runtimeVersion := 3007 }

/-- A forward-convolution node whose destination buffer (input 2) is a
graph input (no owner) with two consuming nodes. -/
def multiConsumerNode : ConvNode :=
  { kind := ConvOpKind.conv, algo := "none", inplace := false,
    inputs := [⟨none, 1⟩, ⟨none, 1⟩, ⟨none, 2⟩, ⟨none, 1⟩, ⟨none, 1⟩, ⟨none, 1⟩] }

/-- A forward-convolution node whose destination buffer is owned by a
GpuAllocEmpty node and has two consuming nodes. -/
def allocDestNode : ConvNode :=
  { kind := ConvOpKind.conv, algo := "none", inplace := false,
    inputs := [⟨none, 1⟩, ⟨none, 1⟩,
      ⟨some (BufOp.gpuAllocEmpty "float32", [0, 1, 2, 3]), 2⟩,
      ⟨none, 1⟩, ⟨none, 1⟩, ⟨none, 1⟩] }

/-- The node the in-place rule builds from allocDestNode: in-place, with a
fresh single-consumer GpuAllocEmpty destination. -/
def allocDestNodeResult : ConvNode :=
  { kind := ConvOpKind.conv, algo := "none", inplace := true,
    inputs := [⟨none, 1⟩, ⟨none, 1⟩,
      ⟨some (BufOp.gpuAllocEmpty "float32", [0, 1, 2, 3]), 1⟩,
      ⟨none, 1⟩, ⟨none, 1⟩, ⟨none, 1⟩] }

/-! Theorems. -/

/-- Getting index 2 after setting index 2 in a list of length at least 3. -/
theorem get2_set2 {α : Type} (l : List α) (x : α) (h : 2 < l.length) :
    (l.set 2 x).get? 2 = some x := by
  match l with
  | [] => simp at h
  | [a] => simp at h
  | [a, b] => simp at h
  | a :: b :: c :: t => rfl

/-- version never changes the avail cache. -/
theorem version_avail (env : DnnEnv) (st : DnnState) :
    (version env st).2.avail = st.avail := by
  rcases st with ⟨a, m, vc⟩
  rcases a with _ | b
  · rfl
  rcases b
  · rfl
  rcases vc with _ | v
  · simp only [version]
    split <;> rfl
  · rfl

/-- version never changes the avail cache (equation form). -/
theorem version_avail_eq (env : DnnEnv) (st : DnnState) (r : Except String Int)
    (st3 : DnnState) (h : version env st = (r, st3)) : st3.avail = st.avail := by
  have hv := version_avail env st
  rw [h] at hv
  exact hv

/-- Every branch of the probe body leaves the avail cache set. -/
theorem dnn_available_sets_avail (env : DnnEnv) (st : DnnState) :
    ((dnn_available env st).2.1.avail).isSome := by
  rcases h : st.avail with _ | b
  case some => simp [dnn_available, h]
  case none =>
    simp only [dnn_available, h]
    split
    · rfl
    split
    · rfl
    split
    · rfl
    split
    case _ e st3 heq =>
      have h3 := version_avail_eq env _ _ _ heq
      show st3.avail.isSome = true
      rw [h3]
      rfl
    case _ v st3 heq =>
      have h3 := version_avail_eq env _ _ _ heq
      split
      · rfl
      split
      · rfl
      show st3.avail.isSome = true
      rw [h3]
      rfl

/-- With the avail cache set, dnn_available returns the cached verdict,
leaves the state unchanged and does not run the probe body. -/
theorem dnn_available_cached_run (env : DnnEnv) (st : DnnState) (b : Bool)
    (h : st.avail = some b) :
    dnn_available env st = (Except.ok b, st, false) := by
  simp [dnn_available, h]

/-- Across any number of sequential calls the probe body runs at most
once. -/
theorem dnnCalls_le_one (env : DnnEnv) : ∀ n, (dnnCalls env n).2 ≤ 1
  | 0 => by simp [dnnCalls]
  | 1 => by
    simp only [dnnCalls]
    split <;> simp
  | n + 2 => by
    have hsome : ((dnnCalls env (n + 1)).1.avail).isSome :=
      dnn_available_sets_avail env (dnnCalls env n).1
    obtain ⟨b, hb⟩ := Option.isSome_iff_exists.mp hsome
    have hc := dnn_available_cached_run env (dnnCalls env (n + 1)).1 b hb
    have ih := dnnCalls_le_one env (n + 1)
    show (dnnCalls env (n + 1)).2 +
        (if (dnn_available env (dnnCalls env (n + 1)).1).2.2 then 1 else 0) ≤ 1
    rw [hc]
    simpa using ih

/-- C5: the availability gate is memoized for the process lifetime.  For
every environment, across any number n of sequential calls starting from
the unset caches the probe body executes at most once regardless of the
probe outcome, and any call that finds the avail cache set returns the
cached verdict, with no state change and without running the probe. -/
theorem dnn_available_memoized (env : DnnEnv) :
    (∀ n, (dnnCalls env n).2 ≤ 1) ∧
    (∀ st b, st.avail = some b →
      dnn_available env st = (Except.ok b, st, false)) :=
  ⟨dnnCalls_le_one env, fun st b h => dnn_available_cached_run env st b h⟩

/-- Witness for C5: five sequential calls in the concrete environment
envCap probe at most once, and a call on a cached-available state returns
the cached verdict unchanged. -/
theorem dnn_available_memoized_witness :
    (dnnCalls envCap 5).2 ≤ 1 ∧
    dnn_available envCap ⟨some true, none, some 3007⟩ =
      (Except.ok true, ⟨some true, none, some 3007⟩, false) :=
  ⟨(dnn_available_memoized envCap).1 5,
    (dnn_available_memoized envCap).2 ⟨some true, none, some 3007⟩ true rfl⟩

/-- C6 (code_bug evidence): the probe does not terminate at the
compute-capability stage.  On envCap (bin_id "sm_20", capability below the
minimum) the comparison pyStrLt (pyDropLast2 bin_id) "30" is false because
bin_id with the last two characters dropped is "sm_", so the stage never
detects the weak device and the probe caches available with no message; on
envCap2 the comparison does hold, yet the missing return lets the trial
compilation overwrite the verdict, and the probe still caches available.
The claim says either input caches the unavailable verdict at that
stage. -/
theorem dnn_available_capability_stage_bug :
    (dnn_available envCap dnnState0).1 = Except.ok true ∧
    (dnn_available envCap dnnState0).2.1.avail = some true ∧
    (dnn_available envCap dnnState0).2.1.msg = none ∧
    pyStrLt (pyDropLast2 envCap.binId) "30".data = false ∧
    pyStrLt (pyDropLast2 envCap2.binId) "30".data = true ∧
    (dnn_available envCap2 dnnState0).1 = Except.ok true ∧
    (dnn_available envCap2 dnnState0).2.1.avail = some true :=
  ⟨rfl, by decide, by decide, by decide, by decide, rfl, by decide⟩

/-- C1 (code_bug evidence): get_out_shape matches the spec formula at rank 2
(including the end-to-end example [2,3,8,8] * [4,3,3,3] valid (1,1) =
[2,4,6,6]), but at rank 3 it returns a depth of 1 instead of 4 on the
failing input (it reads the kernel depth from the image shape and divides
only the kernel depth by the stride), and the rank-3 "full" case raises
NameError since padd is never assigned. -/
theorem get_out_shape_rank3_bug :
    get_out_shape [2, 3, 8, 8] [4, 3, 3, 3] (BorderArg.bstr "valid") [1, 1] =
      some [2, 4, 6, 6] ∧
    get_out_shape [2, 3, 8, 8, 8] [4, 3, 3, 3, 5] (BorderArg.bstr "valid")
      [1, 1, 1] = some [2, 4, 6, 6, 1] ∧
    specConvOutShape [2, 3, 8, 8, 8] [4, 3, 3, 3, 5] [0, 0, 0] [1, 1, 1] =
      [2, 4, 6, 6, 4] ∧
    ([2, 4, 6, 6, 1] : List Int) ≠ [2, 4, 6, 6, 4] ∧
    get_out_shape [2, 3, 8, 8, 8] [4, 3, 3, 3, 5] (BorderArg.bstr "full")
      [1, 1, 1] = none :=
  ⟨by decide, by decide, by decide, by decide, by decide⟩

/-- C4: the differentiation rule of the forward convolution returns the
input-gradient application times alpha for img, the weight-gradient
application times alpha for kern, the (contiguity-enforced) incoming
gradient times beta for the output buffer, a disconnected gradient for the
descriptor and not-implemented placeholders for alpha and beta; the
connection pattern excludes only input 3, the descriptor. -/
theorem GpuDnnConv_grad_rule (img kerns output desc alpha beta topGrad : Expr) :
    GpuDnnConv_grad img kerns output desc alpha beta topGrad =
      [Expr.mul (Expr.appGradI kerns (Expr.gpuContiguous topGrad)
          (Expr.emptyLike img) desc) alpha,
        Expr.mul (Expr.appGradW img (Expr.gpuContiguous topGrad)
          (Expr.emptyLike kerns) desc) alpha,
        Expr.mul (Expr.gpuContiguous topGrad) beta,
        Expr.disconnected,
        Expr.gradNotImplemented 4 alpha,
        Expr.gradNotImplemented 5 beta] ∧
    GpuDnnConv_connection_pattern = [[1], [1], [1], [0], [1], [1]] ∧
    GpuDnnConv_connection_pattern.count [0] = 1 ∧
    GpuDnnConv_connection_pattern.get? 3 = some [0] :=
  ⟨rfl, rfl, by decide, by decide⟩

/-- The default ensure_dt result: the default constant retagged to the
requested dtype. -/
theorem ensure_dt_none (d : ScalarV) (n dt : String) :
    ensure_dt none d n dt = { val := d.val, dtype := dt } := by
  cases d with
  | mk v dty =>
    unfold ensure_dt
    by_cases h : dty = dt <;> simp [h]

/-- C10: with alpha and beta omitted, each of the three convolution
make_node functions builds the node with alpha the scalar constant 1 and
beta the scalar constant 0, cast to the primary tensor's dtype, and under
the kernel contract output := alpha * op + beta * output these defaults
compute the plain operator value. -/
theorem conv_scalar_defaults (dI dW dK : String) :
    GpuDnnConv_make_node_scalars dI none none =
      ({ val := 1, dtype := dI }, { val := 0, dtype := dI }) ∧
    GpuDnnConvGradW_make_node_scalars dW none none =
      ({ val := 1, dtype := dW }, { val := 0, dtype := dW }) ∧
    GpuDnnConvGradI_make_node_scalars dK none none =
      ({ val := 1, dtype := dK }, { val := 0, dtype := dK }) ∧
    ∀ opval outval : Rat, convScale 1 0 opval outval = opval := by
  refine ⟨?_, ?_, ?_, fun opval outval => by simp [convScale]⟩ <;>
    simp [GpuDnnConv_make_node_scalars, GpuDnnConvGradW_make_node_scalars,
      GpuDnnConvGradI_make_node_scalars, ensure_dt_none, _one, _zero]

/-- C2 counterexample: on multiConsumerNode, whose destination buffer is
not produced by GpuAllocEmpty and has two consumers, the in-place rule
still fires: the new node is marked in-place, no fresh allocation is
substituted, and the destructively reused buffer keeps its two consumers,
refuting that every buffer marked for destructive reuse has exactly one
consumer. -/
theorem inplace_multi_consumer_counterexample :
    (local_dnn_conv_inplace multiConsumerNode).map (fun n => n.inplace) =
      some true ∧
    (local_dnn_conv_inplace multiConsumerNode).map (fun n => n.inputs.get? 2) =
      some (some ⟨none, 2⟩) ∧
    (2 : Nat) ≠ 1 :=
  ⟨by decide, by decide, by decide⟩

/-- Shared single-consumer lemma for the three in-place rule bodies. -/
theorem inplace_body_alloc_single (k : ConvOpKind) (node node2 : ConvNode)
    (h : dnn_conv_inplace_body k node = some node2)
    (dest : Buf) (hdest : node.inputs.get? 2 = some dest)
    (dt : String) (ins : List Nat)
    (halloc : dest.owner = some (BufOp.gpuAllocEmpty dt, ins))
    (hc : 1 ≤ dest.clients) :
    (node2.inputs.get? 2).map (fun d => d.clients) = some 1 ∧
      node2.inplace = true := by
  unfold dnn_conv_inplace_body at h
  split at h
  · exact absurd h (by simp)
  rw [hdest] at h
  simp only [halloc] at h
  split at h
  case isTrue hgt =>
    have hlen : 2 < node.inputs.length := by
      by_contra hl
      push_neg at hl
      rw [List.get?_eq_none.mpr hl] at hdest
      exact Option.noConfusion hdest
    obtain rfl : node2 =
        { kind := k, algo := node.algo, inplace := true,
          inputs := node.inputs.set 2
            { owner := some (BufOp.gpuAllocEmpty dt, ins), clients := 1 } } :=
      (Option.some.inj h).symm
    refine ⟨?_, rfl⟩
    rw [get2_set2 node.inputs _ hlen]
    rfl
  case isFalse hle =>
    obtain rfl : node2 =
        { kind := k, algo := node.algo, inplace := true,
          inputs := node.inputs } :=
      (Option.some.inj h).symm
    have h1 : dest.clients = 1 := by omega
    refine ⟨?_, rfl⟩
    show (node.inputs.get? 2).map (fun d => d.clients) = some 1
    rw [hdest]
    simp [h1]

/-- C2 amended: when one of the three in-place rules fires on a node whose
destination buffer (input 2, with the matched node among its clients, so
at least one) is produced by GpuAllocEmpty, the rewritten node is in-place
and its destination buffer has exactly one consumer; a fresh allocation
mirroring the original is substituted exactly when the original had more
than one consumer.  (For destinations not produced by GpuAllocEmpty the
rule marks in-place regardless of the consumer count, as the
counterexample shows.) -/
theorem inplace_alloc_empty_single_consumer (node node2 : ConvNode)
    (h : local_dnn_conv_inplace node = some node2 ∨
         local_dnn_convgw_inplace node = some node2 ∨
         local_dnn_convgi_inplace node = some node2)
    (dest : Buf) (hdest : node.inputs.get? 2 = some dest)
    (dt : String) (ins : List Nat)
    (halloc : dest.owner = some (BufOp.gpuAllocEmpty dt, ins))
    (hc : 1 ≤ dest.clients) :
    (node2.inputs.get? 2).map (fun d => d.clients) = some 1 ∧
      node2.inplace = true := by
  rcases h with h | h | h <;>
    exact inplace_body_alloc_single _ node node2 h dest hdest dt ins halloc hc

/-- Witness for C2 at the concrete node allocDestNode (GpuAllocEmpty-owned
destination with two consumers): the rule fires and the resulting node is
in-place with a single-consumer destination. -/
theorem inplace_alloc_empty_single_consumer_witness :
    (allocDestNodeResult.inputs.get? 2).map (fun d => d.clients) = some 1 ∧
      allocDestNodeResult.inplace = true :=
  inplace_alloc_empty_single_consumer allocDestNode allocDestNodeResult
    (Or.inl (by decide))
    ⟨some (BufOp.gpuAllocEmpty "float32", [0, 1, 2, 3]), 2⟩
    (by decide) "float32" [0, 1, 2, 3] rfl (by decide)

/-- C3: with border mode "full", subsample (1, 1) and a direction hint
other than "forward!", dnn_conv lowers to GpuDnnConvGradI; the descriptor
is built with border mode "valid", subsample (1, 1) and the complement of
the requested conv mode, and is sized from the (axis-swapped) kernel
shape; the output buffer has shape
[batch, channel_out, i2 + k2 - 1, i3 + k3 - 1]. -/
theorem dnn_conv_full_lowers_to_gradI (i0 i1 i2 i3 k0 k1 k2 k3 : Int)
    (conv_mode : String) (hint : Option String)
    (hcm : conv_mode = "conv" ∨ conv_mode = "cross")
    (hhint : hint ≠ some "forward!") :
    dnn_conv [i0, i1, i2, i3] [k0, k1, k2, k3] (BorderArg.bstr "full") [1, 1]
        conv_mode hint =
      some (ConvLowering.gradI (BorderArg.bstr "valid") [1, 1]
        (if conv_mode = "conv" then "cross" else "conv")
        [k1, k0, k2, k3] [i0, k0, i2 + k2 - 1, i3 + k3 - 1]) := by
  rcases hcm with h | h <;> subst h <;>
    simp [dnn_conv, dimshuffle1023, GpuDnnConvDesc_init, hhint, Except.toOption]

/-- Witness for C3: image [2,3,8,8], kernel [4,3,3,3], "full", stride
(1,1), mode "conv", no hint: the chosen lowering is the input-gradient
operator with a "valid" cross-correlation descriptor sized from the
swapped kernel shape [3,4,3,3], and the output shape is [2,4,10,10]. -/
theorem dnn_conv_full_lowers_to_gradI_witness :
    dnn_conv [2, 3, 8, 8] [4, 3, 3, 3] (BorderArg.bstr "full") [1, 1]
        "conv" none =
      some (ConvLowering.gradI (BorderArg.bstr "valid") [1, 1] "cross"
        [3, 4, 3, 3] [2, 4, 10, 10]) := by
  have h := dnn_conv_full_lowers_to_gradI 2 3 8 8 4 3 3 3 "conv" none
    (Or.inl rfl) (by simp)
  simpa using h

/-- C7 counterexample: a rank-3 convolution descriptor is accepted by
GpuDnnConvDesc, whose constructor performs no backend-version check at all
(it does not even receive the detected version), so in particular the
construction also succeeds when the detected version is below the one that
introduced N-dimensional descriptor support, where the claim says it must
fail. -/
theorem conv_desc_rank3_no_version_gate :
    GpuDnnConvDesc_init (BorderArg.bstr "valid") [1, 1, 1] "conv" =
      Except.ok ⟨BorderArg.bstr "valid", [1, 1, 1], "conv"⟩ :=
  rfl

/-- C7 amended: the rank-3 version gate exists only for the pooling
descriptor: with otherwise valid parameters a rank-3 GpuDnnPoolDesc
construction succeeds exactly when the detected version is at least 3000,
while a rank-3 GpuDnnConvDesc construction (valid nonnegative padding
tuple, rank-3 subsample, valid conv mode) always succeeds, the constructor
having no version input. -/
theorem desc_rank3_version_gate (ws stride pad : List Int) (mode : String)
    (v : Int)
    (hm : mode = "max" ∨ mode = "average_inc_pad" ∨ mode = "average_exc_pad")
    (hw : ws.length = 3) (hs : stride.length = 3) (hp : pad.length = 3)
    (bt sub : List Int) (cm : String)
    (hbt : bt.length = 3) (hbtn : ∀ x ∈ bt, 0 ≤ x) (hsub : sub.length = 3)
    (hcm : cm = "conv" ∨ cm = "cross") :
    ((GpuDnnPoolDesc_init ws stride mode pad v).isOk = true ↔ 3000 ≤ v) ∧
    (GpuDnnConvDesc_init (BorderArg.btuple bt) sub cm).isOk = true := by
  constructor
  · rcases hm with h | h | h <;> subst h <;>
      by_cases hv : v < 3000 <;>
      simp [GpuDnnPoolDesc_init, hw, hs, hp, hv, Except.isOk, Except.toBool] <;>
      (try omega)
  · rcases bt with _ | ⟨a, bt⟩
    · simp at hbt
    rcases bt with _ | ⟨b, bt⟩
    · simp at hbt
    rcases bt with _ | ⟨c, bt⟩
    · simp at hbt
    rcases bt with _ | ⟨d, bt⟩
    case cons => simp at hbt
    have ha : (0 : Int) ≤ a := hbtn a (by simp)
    have hb : (0 : Int) ≤ b := hbtn b (by simp)
    have hc2 : (0 : Int) ≤ c := hbtn c (by simp)
    rcases hcm with h | h <;> subst h <;>
      simp [GpuDnnConvDesc_init, hsub, List.min?, Except.isOk, Except.toBool] <;>
      rw [if_neg (by omega)]

/-- Witness for C7 at concrete parameters: a rank-3 pooling descriptor at
version 3007 is accepted (and the gate reduces to 3000 less-or-equal 3007),
and a rank-3 convolution descriptor with padding (0,0,0), subsample
(1,1,1), mode "conv" is accepted. -/
theorem desc_rank3_version_gate_witness :
    ((GpuDnnPoolDesc_init [2, 2, 2] [1, 1, 1] "max" [0, 0, 0] 3007).isOk = true
      ↔ (3000 : Int) ≤ 3007) ∧
    (GpuDnnConvDesc_init (BorderArg.btuple [0, 0, 0]) [1, 1, 1] "conv").isOk =
      true :=
  desc_rank3_version_gate [2, 2, 2] [1, 1, 1] [0, 0, 0] "max" 3007
    (Or.inl rfl) rfl rfl rfl [0, 0, 0] [1, 1, 1] "conv" rfl
    (by decide) rfl (Or.inl rfl)

/-- C8: on an elementwise-Log node whose input is produced by a softmax
node (algo a, mode m, first input xi), the fusion fires exactly when the
gate reports availability, the detected version is at least 3000 and the
softmax result has exactly one consumer; the replacement is a single
softmax node with algo "log", the original mode m, applied to the softmax
node's own input; otherwise the graph is left unchanged. -/
theorem log_softmax_fusion (dnnAvail : Bool) (v : Int) (op : SNodeOp)
    (x : SVal) (rest : List SVal) (a m : String) (xi : Nat)
    (sRest : List Nat)
    (hx : x.owner = some (SNodeOp.softmaxOp a m, xi :: sRest))
    (hm : m = "instance" ∨ m = "channel") :
    local_log_softmax_dnn dnnAvail v op (x :: rest) =
      (if dnnAvail = true ∧ 3000 ≤ v ∧ op = SNodeOp.elemwiseLog ∧
          x.clients = 1
       then some (SNodeOp.softmaxOp "log" m, [xi]) else none) := by
  rcases hm with hm | hm <;> subst hm <;>
    by_cases hA : dnnAvail = true <;>
    by_cases hV : v < 3000 <;>
    cases op <;>
    by_cases hC : x.clients = 1 <;>
    simp_all [local_log_softmax_dnn, GpuDnnSoftmaxBase_init, Except.toOption] <;>
    rw [if_neg (by omega)]

/-- Witness for C8: a Log elemwise on a single-consumer channel-softmax
output, with the gate available at version 3000, is rewritten to the
log-mode softmax on the softmax input (variable 7). -/
theorem log_softmax_fusion_witness :
    local_log_softmax_dnn true 3000 SNodeOp.elemwiseLog
        [⟨some (SNodeOp.softmaxOp "accurate" "channel", [7]), 1⟩] =
      some (SNodeOp.softmaxOp "log" "channel", [7]) := by
  have h := log_softmax_fusion true 3000 SNodeOp.elemwiseLog
    ⟨some (SNodeOp.softmaxOp "accurate" "channel", [7]), 1⟩ [] "accurate"
    "channel" 7 [] rfl (Or.inr rfl)
  simpa using h

/-- C9: whenever the average-pooling gradient lift fires, the accelerated
node it builds receives the contiguity-enforced output-gradient tensor in
both the forward-output slot and the output-gradient slot (and the
contiguity-enforced input in the first slot, with the descriptor built
from the node's pooling parameters). -/
theorem avg_pool_grad_reuses_gradient (dnnAvail ib : Bool)
    (ds st pad : List Int) (mode : String) (v : Int) (inp og r : Expr)
    (h : local_avg_pool_dnn_grad_stride dnnAvail ib ds st pad mode v inp og =
      some r) :
    ∃ d, GpuDnnPoolDesc_init ds st mode pad v = Except.ok d ∧
      r = Expr.appPoolGrad (Expr.gpuContiguous inp) (Expr.gpuContiguous og)
        (Expr.gpuContiguous og)
        (Expr.poolDesc d.ws d.stride d.mode d.pad) := by
  unfold local_avg_pool_dnn_grad_stride at h
  split at h
  · exact absurd h (by simp)
  split at h
  · exact absurd h (by simp)
  rcases hd : GpuDnnPoolDesc_init ds st mode pad v with e | d <;>
    rw [hd] at h <;> simp [Except.toOption] at h
  exact ⟨d, rfl, h.symm⟩

/-- Witness for C9: the fired rule on concrete inputs (window (2,2),
stride (2,2), pad (0,0), mode average_exc_pad, version 3007) passes the
same contiguity-enforced gradient for both slots. -/
theorem avg_pool_grad_reuses_gradient_witness :
    ∃ d, GpuDnnPoolDesc_init [2, 2] [2, 2] "average_exc_pad" [0, 0] 3007 =
        Except.ok d ∧
      Expr.appPoolGrad (Expr.gpuContiguous (Expr.v 0))
          (Expr.gpuContiguous (Expr.v 1)) (Expr.gpuContiguous (Expr.v 1))
          (Expr.poolDesc [2, 2] [2, 2] "average_exc_pad" [0, 0]) =
        Expr.appPoolGrad (Expr.gpuContiguous (Expr.v 0))
          (Expr.gpuContiguous (Expr.v 1)) (Expr.gpuContiguous (Expr.v 1))
          (Expr.poolDesc d.ws d.stride d.mode d.pad) :=
  avg_pool_grad_reuses_gradient true true [2, 2] [2, 2] [0, 0]
    "average_exc_pad" 3007 (Expr.v 0) (Expr.v 1) _ rfl

end TheanoDnn
